import Mathlib

/-
  Shallow embedding of src/config/db.js (TravelPlan02 repository).

  The module under verification is a SQLite bootstrapping/migration file.
  We model:
    - the six CREATE TABLE statements of initDb as schema data (TableDef),
    - SQLite values as SqlVal (NULL / INTEGER / TEXT / REAL),
    - the database file state as DbState (schema + indexes + the rows of
      the tables the claims touch: users, matches, points_ledger),
    - ensurePointsLedgerSchema and initDb as state transformers that also
      emit an event trace (DbEvent) recording what statements they issued,
    - the promise wrapper wrapDb as functions from a driver outcome to a
      promise settlement (Settled), distinguishing rejection with the raw
      driver error from rejection with a wrapping Error object,
    - the module-level singleton state (dbInstance) and getDb / close.
-/

namespace TravelPlanDb

/-! ## SQLite values -/

/-- Model of a dynamically typed SQLite value stored in a cell. -/
inductive SqlVal where
  | null
  | int (n : Int)
  | real (q : Rat)
  | text (s : String)
deriving Repr, DecidableEq

/-! ## Schema model (transliteration of the DDL in initDb) -/

/-- One column of a CREATE TABLE statement. -/
structure ColumnDef where
  name : String
  sqlType : String
  notNull : Bool
  primaryKey : Bool
  autoincrement : Bool
  unique : Bool
  defaultVal : Option String
deriving Repr, DecidableEq

/-- One FOREIGN KEY clause of a CREATE TABLE statement. -/
structure ForeignKeyDef where
  column : String
  refTable : String
  refColumn : String
  onDeleteCascade : Bool
deriving Repr, DecidableEq

/-- A table definition as present in the database file. -/
structure TableDef where
  name : String
  columns : List ColumnDef
  compositeKey : List String
  foreignKeys : List ForeignKeyDef
deriving Repr, DecidableEq

/-- Shorthand for an ordinary (non-key) column. -/
def col (name sqlType : String) (notNull : Bool) (defaultVal : Option String) : ColumnDef :=
  { name := name, sqlType := sqlType, notNull := notNull,
    primaryKey := false, autoincrement := false, unique := false,
    defaultVal := defaultVal }

/-- Shorthand for an INTEGER PRIMARY KEY AUTOINCREMENT column. -/
def pkCol (name : String) : ColumnDef :=
  { name := name, sqlType := "INTEGER", notNull := false,
    primaryKey := true, autoincrement := true, unique := false,
    defaultVal := none }

/-- CREATE TABLE users (db.js lines 119-126). -/
def usersTable : TableDef :=
  { name := "users"
  , columns :=
      [ pkCol "id"
      , { col "username" "TEXT" true none with unique := true }
      , col "password_hash" "TEXT" true none
      , col "display_name" "TEXT" true none
      , col "is_admin" "INTEGER" true (some "0")
      , col "created_at" "TEXT" true none ]
  , compositeKey := []
  , foreignKeys := [] }

/-- CREATE TABLE series (db.js lines 128-138). -/
def seriesTable : TableDef :=
  { name := "series"
  , columns :=
      [ pkCol "id"
      , { col "name" "TEXT" true none with unique := true }
      , col "description" "TEXT" false none
      , col "start_date_utc" "TEXT" true none
      , col "end_date_utc" "TEXT" false none
      , col "is_locked" "INTEGER" true (some "0")
      , col "created_by" "INTEGER" true none
      , col "created_at" "TEXT" true none ]
  , compositeKey := []
  , foreignKeys :=
      [ { column := "created_by", refTable := "users", refColumn := "id",
          onDeleteCascade := false } ] }

/-- CREATE TABLE series_members (db.js lines 140-147). -/
def seriesMembersTable : TableDef :=
  { name := "series_members"
  , columns :=
      [ col "series_id" "INTEGER" true none
      , col "user_id" "INTEGER" true none
      , col "joined_at" "TEXT" true none ]
  , compositeKey := ["series_id", "user_id"]
  , foreignKeys :=
      [ { column := "series_id", refTable := "series", refColumn := "id",
          onDeleteCascade := true }
      , { column := "user_id", refTable := "users", refColumn := "id",
          onDeleteCascade := true } ] }

/-- CREATE TABLE matches (db.js lines 149-163). -/
def matchesTable : TableDef :=
  { name := "matches"
  , columns :=
      [ pkCol "id"
      , col "series_id" "INTEGER" true none
      , col "name" "TEXT" true none
      , col "sport" "TEXT" true none
      , col "team_a" "TEXT" true none
      , col "team_b" "TEXT" true none
      , col "start_time_utc" "TEXT" true none
      , col "cutoff_minutes_before" "INTEGER" true (some "30")
      , col "entry_points" "REAL" true (some "50")
      , col "status" "TEXT" true (some "scheduled")
      , col "winner" "TEXT" false none
      , col "admin_declared_at" "TEXT" false none ]
  , compositeKey := []
  , foreignKeys :=
      [ { column := "series_id", refTable := "series", refColumn := "id",
          onDeleteCascade := true } ] }

/-- CREATE TABLE predictions (db.js lines 165-174). -/
def predictionsTable : TableDef :=
  { name := "predictions"
  , columns :=
      [ col "match_id" "INTEGER" true none
      , col "user_id" "INTEGER" true none
      , col "predicted_team" "TEXT" true none
      , col "predicted_at_utc" "TEXT" true none
      , col "locked" "INTEGER" true (some "0") ]
  , compositeKey := ["match_id", "user_id"]
  , foreignKeys :=
      [ { column := "match_id", refTable := "matches", refColumn := "id",
          onDeleteCascade := true }
      , { column := "user_id", refTable := "users", refColumn := "id",
          onDeleteCascade := true } ] }

/-- CREATE TABLE points_ledger (db.js lines 176-187). -/
def pointsLedgerTable : TableDef :=
  { name := "points_ledger"
  , columns :=
      [ pkCol "id"
      , col "user_id" "INTEGER" true none
      , col "match_id" "INTEGER" true none
      , col "series_id" "INTEGER" true none
      , col "points" "REAL" true none
      , col "reason" "TEXT" true none
      , col "created_at" "TEXT" true none ]
  , compositeKey := []
  , foreignKeys :=
      [ { column := "user_id", refTable := "users", refColumn := "id",
          onDeleteCascade := false }
      , { column := "match_id", refTable := "matches", refColumn := "id",
          onDeleteCascade := false }
      , { column := "series_id", refTable := "series", refColumn := "id",
          onDeleteCascade := false } ] }

/-- The six tables, in the order the initDb script creates them. -/
def schemaTables : List TableDef :=
  [usersTable, seriesTable, seriesMembersTable, matchesTable,
   predictionsTable, pointsLedgerTable]

/-! ## Row model for the tables the claims touch -/

/-- A users row as inserted by the bootstrap INSERT (db.js lines 198-201).
    The AUTOINCREMENT id is left implicit; the fields are the five inserted
    column values, in the order of the VALUES list. -/
structure UserRow where
  username : String
  password_hash : String
  display_name : String
  is_admin : Int
  created_at : String
deriving Repr, DecidableEq

/-- A matches row, restricted to the columns the ledger backfill reads
    (m.id and m.series_id). -/
structure MatchRow where
  id : Int
  series_id : Int
deriving Repr, DecidableEq

/-- A points_ledger row. series_id and match_id are SqlVal because on a
    legacy table they may hold NULL or an empty string; the remaining
    columns are carried opaquely so we can state that the backfill leaves
    them untouched. -/
structure LedgerRow where
  id : Int
  user_id : SqlVal
  match_id : SqlVal
  series_id : SqlVal
  points : SqlVal
  reason : SqlVal
  created_at : SqlVal
deriving Repr, DecidableEq

/-! ## Database file state -/

/-- The state of the SQLite database file: which tables and indexes exist
    (with their current column lists), whether the connection enforces
    foreign keys, and the rows of the tables the claims are about. -/
structure DbState where
  foreignKeysOn : Bool
  tables : List TableDef
  indexes : List String
  users : List UserRow
  matchRows : List MatchRow
  ledger : List LedgerRow
deriving Repr, DecidableEq

/-- A freshly created (empty) database file. -/
def emptyDb : DbState :=
  { foreignKeysOn := false, tables := [], indexes := [],
    users := [], matchRows := [], ledger := [] }

/-- Events recording the statements initDb / ensurePointsLedgerSchema issue,
    in order. The Bool on create events records whether the object was
    actually created (IF NOT EXISTS found it absent). -/
inductive DbEvent where
  | enableForeignKeys
  | createTable (name : String) (created : Bool)
  | queryUserCount (c : Nat)
  | bcryptHash (password : String) (cost : Nat)
  | insertAdminUser (username : String) (displayName : String)
  | tableInfo (table : String)
  | addColumn (table : String) (column : String)
  | backfillLedger
  | createIndex (name : String) (created : Bool)
deriving Repr, DecidableEq

/-! ## Schema creation (the single db.exec script of initDb) -/

/-- CREATE TABLE IF NOT EXISTS: adds the table only when no table of that
    name exists; an existing table keeps its current definition. -/
def createTableIfNotExists (st : DbState) (t : TableDef) : DbState × DbEvent :=
  if st.tables.any (fun u => u.name == t.name) then
    (st, DbEvent.createTable t.name false)
  else
    ({ st with tables := st.tables ++ [t] }, DbEvent.createTable t.name true)

/-- The db.exec script of initDb (db.js lines 116-188): first the
    PRAGMA foreign_keys = ON statement, then the six CREATE TABLE IF NOT
    EXISTS statements in script order. -/
def execSchema (st : DbState) : DbState × List DbEvent :=
  let st0 := { st with foreignKeysOn := true }
  schemaTables.foldl
    (fun acc t =>
      let p := createTableIfNotExists acc.1 t
      (p.1, acc.2 ++ [p.2]))
    (st0, [DbEvent.enableForeignKeys])

/-! ## ensurePointsLedgerSchema (db.js lines 12-47) -/

/-- PRAGMA table_info: the column names of a table ([] when absent). -/
def columnNames (st : DbState) (table : String) : List String :=
  match st.tables.find? (fun t => t.name == table) with
  | some t => t.columns.map (fun c => c.name)
  | none => []

/-- ALTER TABLE table ADD COLUMN: appends the column to the stored
    definition of the named table. -/
def addColumnToTable (st : DbState) (table : String) (c : ColumnDef) : DbState :=
  { st with tables :=
      st.tables.map (fun t =>
        if t.name == table then { t with columns := t.columns ++ [c] } else t) }

/-- SQL predicate series_id IS NULL OR series_id = ''. A stored integer
    never compares equal to the text value '', so only NULL and the empty
    text satisfy it. -/
def isNullOrEmpty (v : SqlVal) : Bool :=
  match v with
  | SqlVal.null => true
  | SqlVal.text s => s == ""
  | _ => false

/-- The scalar subquery SELECT m.series_id FROM matches m WHERE
    m.id = points_ledger.match_id: the matched series id, or NULL when no
    matches row has that id. -/
def matchSeriesId (ms : List MatchRow) (mid : SqlVal) : SqlVal :=
  match mid with
  | SqlVal.int n =>
      match ms.find? (fun m => m.id == n) with
      | some m => SqlVal.int m.series_id
      | none => SqlVal.null
  | _ => SqlVal.null

/-- The effect of the backfill UPDATE (db.js lines 31-40) on one row:
    WHERE (series_id IS NULL OR series_id = '') AND match_id IS NOT NULL
    SET series_id = (scalar subquery over matches). -/
def backfillRow (ms : List MatchRow) (r : LedgerRow) : LedgerRow :=
  if isNullOrEmpty r.series_id && !(r.match_id == SqlVal.null) then
    { r with series_id := matchSeriesId ms r.match_id }
  else r

/-- CREATE INDEX IF NOT EXISTS. -/
def createIndexIfNotExists (st : DbState) (idx : String) : DbState × DbEvent :=
  if st.indexes.contains idx then (st, DbEvent.createIndex idx false)
  else ({ st with indexes := st.indexes ++ [idx] }, DbEvent.createIndex idx true)

/-- ensurePointsLedgerSchema (db.js lines 12-47): read the ledger table
    columns with PRAGMA table_info; ALTER TABLE ADD COLUMN series_id /
    match_id when absent (existing rows get NULL in a freshly added
    column); run the backfill UPDATE; create the two indexes IF NOT
    EXISTS. Returns the new state and the event trace. -/
def ensurePointsLedgerSchema (st : DbState) : DbState × List DbEvent :=
  let names := columnNames st "points_ledger"
  let hasSeriesId := names.contains "series_id"
  let hasMatchId := names.contains "match_id"
  let p1 :=
    if hasSeriesId then (st, ([] : List DbEvent))
    else
      let stA := addColumnToTable st "points_ledger"
        (col "series_id" "INTEGER" false none)
      ({ stA with ledger := stA.ledger.map (fun r => { r with series_id := SqlVal.null }) },
       [DbEvent.addColumn "points_ledger" "series_id"])
  let p2 :=
    if hasMatchId then (p1.1, ([] : List DbEvent))
    else
      let stB := addColumnToTable p1.1 "points_ledger"
        (col "match_id" "INTEGER" false none)
      ({ stB with ledger := stB.ledger.map (fun r => { r with match_id := SqlVal.null }) },
       [DbEvent.addColumn "points_ledger" "match_id"])
  let st2 := p2.1
  let st3 := { st2 with ledger := st2.ledger.map (backfillRow st2.matchRows) }
  let p4 := createIndexIfNotExists st3 "idx_points_ledger_series_user"
  let p5 := createIndexIfNotExists p4.1 "idx_points_ledger_match"
  (p5.1,
   [DbEvent.tableInfo "points_ledger"] ++ p1.2 ++ p2.2
     ++ [DbEvent.backfillLedger] ++ [p4.2, p5.2])

/-! ## initDb (db.js lines 114-205) -/

/-- The three BOOTSTRAP_ADMIN_* environment variables (none = unset). -/
structure BootstrapEnv where
  username : Option String
  password : Option String
  displayName : Option String
deriving Repr, DecidableEq

/-- JavaScript (v || d): the default is used when the variable is unset
    or the empty string (both falsy). -/
def orDefault (v : Option String) (d : String) : String :=
  match v with
  | some s => if s == "" then d else s
  | none => d

/-- initDb (db.js lines 114-205): run the schema script, SELECT COUNT(*)
    from users, and when the count is zero hash the bootstrap password
    with bcrypt cost factor 10 and INSERT one admin row (is_admin = 1);
    finally invoke ensurePointsLedgerSchema. The bcrypt hash is an
    abstract parameter (password and cost in, hash out); now is the
    current timestamp string. -/
def initDb (env : BootstrapEnv) (hash : String → Nat → String) (now : String)
    (st : DbState) : DbState × List DbEvent :=
  let p1 := execSchema st
  let st1 := p1.1
  let c := st1.users.length
  let p2 :=
    if c == 0 then
      let username := orDefault env.username "admin"
      let password := orDefault env.password "Admin@123"
      let displayName := orDefault env.displayName "Admin"
      let h := hash password 10
      ({ st1 with users := st1.users ++
          [{ username := username, password_hash := h,
             display_name := displayName, is_admin := 1, created_at := now }] },
       [DbEvent.bcryptHash password 10,
        DbEvent.insertAdminUser username displayName])
    else (st1, ([] : List DbEvent))
  let p3 := ensurePointsLedgerSchema p2.1
  (p3.1, p1.2 ++ [DbEvent.queryUserCount c] ++ p2.2 ++ p3.2)

/-! ## The promise wrapper wrapDb (db.js lines 68-102)

    Each wrapped operation hands the driver a callback; the callback either
    resolves the promise with the driver result or rejects it. A rejection
    value is either the driver error value itself (reject(err)) or an Error
    object of some class wrapping a driver error (e.g. a DatabaseError
    carrying the cause) - the distinction the spec's error contract is
    about. The driver call is modelled as a function from the query and
    parameters to an Except: error or result. -/

/-- A value a promise can be rejected with: the raw driver error itself,
    or an Error object of the named class carrying the driver error as its
    cause. -/
inductive RejectVal (ε : Type) where
  | raw (e : ε)
  | errObject (className : String) (cause : ε)
deriving Repr, DecidableEq

/-- The settlement of a promise. -/
inductive Settled (ε : Type) (α : Type) where
  | resolved (a : α)
  | rejected (r : RejectVal ε)
deriving Repr, DecidableEq

/-- What run resolves with: { changes: this.changes, lastID: this.lastID }. -/
structure RunResult where
  changes : Nat
  lastID : Nat
deriving Repr, DecidableEq

/-- wrapDb(...).run (db.js lines 70-77): call db.run(sql, params, cb); the
    callback rejects with the driver error err when present, otherwise
    resolves with changes/lastID. -/
def wrapRun (driver : String → List SqlVal → Except ε RunResult)
    (sql : String) (params : List SqlVal) : Settled ε RunResult :=
  match driver sql params with
  | Except.error err => Settled.rejected (RejectVal.raw err)
  | Except.ok r => Settled.resolved r

/-- wrapDb(...).get (db.js lines 78-82): resolves with the row (possibly
    absent), rejects with the driver error. -/
def wrapGet (driver : String → List SqlVal → Except ε (Option ρ))
    (sql : String) (params : List SqlVal) : Settled ε (Option ρ) :=
  match driver sql params with
  | Except.error err => Settled.rejected (RejectVal.raw err)
  | Except.ok row => Settled.resolved row

/-- wrapDb(...).all (db.js lines 83-87): resolves with the row list,
    rejects with the driver error. -/
def wrapAll (driver : String → List SqlVal → Except ε (List ρ))
    (sql : String) (params : List SqlVal) : Settled ε (List ρ) :=
  match driver sql params with
  | Except.error err => Settled.rejected (RejectVal.raw err)
  | Except.ok rows => Settled.resolved rows

/-- wrapDb(...).exec (db.js lines 88-92): takes only the sql script,
    resolves with nothing, rejects with the driver error. -/
def wrapExec (driver : String → Except ε Unit) (sql : String) : Settled ε Unit :=
  match driver sql with
  | Except.error err => Settled.rejected (RejectVal.raw err)
  | Except.ok _ => Settled.resolved ()

/-- Whether a settlement is a rejection with an Error object of class
    DatabaseError (what the spec's error contract describes). -/
def rejectsWithDatabaseError (s : Settled ε α) : Bool :=
  match s with
  | Settled.rejected (RejectVal.errObject className _) => className == "DatabaseError"
  | _ => false

/-! ## Module singleton state: dbInstance, getDb, close
    (db.js lines 65, 93-97, 104-112) -/

/-- The wrapper object wrapDb returns; rawId identifies the underlying
    native connection (the raw escape hatch), file is the resolved path. -/
structure DbWrapper where
  rawId : Nat
  file : String
deriving Repr, DecidableEq

/-- Module-level state: the cached singleton (let dbInstance = null), a
    counter giving fresh native-connection identities, the identities of
    native connections currently open, and the connections on which the
    statement PRAGMA foreign_keys = ON was issued at open time. -/
structure ModuleState where
  dbInstance : Option DbWrapper
  nextConnId : Nat
  openConns : List Nat
  fkPragmaIssuedOn : List Nat
deriving Repr, DecidableEq

/-- Module load: dbInstance = null, no connection yet. -/
def initialModuleState : ModuleState :=
  { dbInstance := none, nextConnId := 0, openConns := [], fkPragmaIssuedOn := [] }

/-- The resolved database file path (the default, project-root relative;
    claims do not depend on path resolution). -/
def dbFilePath : String := "data/db.sqlite"

/-- getDb (db.js lines 104-112). When dbInstance is unset: open a native
    connection, issue native.exec(PRAGMA foreign_keys = ON) on it, wrap it
    and cache the wrapper. The pragma is fired without a callback and
    without awaiting, so its outcome (the fkPragmaResult parameter) is
    never inspected: the function returns the wrapper either way, and no
    rejection path exists. When dbInstance is set it is returned as is. -/
def getDb (_fkPragmaResult : Except String Unit) (s : ModuleState) :
    ModuleState × Except String DbWrapper :=
  match s.dbInstance with
  | some w => (s, Except.ok w)
  | none =>
      let connId := s.nextConnId
      let w : DbWrapper := { rawId := connId, file := dbFilePath }
      ({ dbInstance := some w
       , nextConnId := connId + 1
       , openConns := s.openConns ++ [connId]
       , fkPragmaIssuedOn := s.fkPragmaIssuedOn ++ [connId] },
       Except.ok w)

/-- wrapDb(...).close (db.js lines 93-97): db.close(cb) closes the native
    connection; nothing touches dbInstance, so the cached wrapper survives. -/
def closeWrapper (w : DbWrapper) (s : ModuleState) : ModuleState :=
  { s with openConns := s.openConns.filter (fun c => c != w.rawId) }

/-! ## Concrete sample values used by counterexamples and witnesses -/

/-- All three BOOTSTRAP_ADMIN_* variables unset (the default case). -/
def defaultEnv : BootstrapEnv := { username := none, password := none, displayName := none }

/-- A concrete stand-in for the bcrypt hash function. -/
def sampleHash : String → Nat → String := fun p c => String.append p (toString c)

/-- A ledger row whose series_id is already populated (5) but whose
    match_id (99) references no existing match. -/
def danglingPopulatedRow : LedgerRow :=
  { id := 1, user_id := SqlVal.int 1, match_id := SqlVal.int 99,
    series_id := SqlVal.int 5, points := SqlVal.real 2,
    reason := SqlVal.text "win", created_at := SqlVal.text "t0" }

/-- A database holding only the (already migrated) points_ledger table,
    no matches, and the one dangling-but-populated ledger row. -/
def danglingPopulatedState : DbState :=
  { foreignKeysOn := true, tables := [pointsLedgerTable], indexes := [],
    users := [], matchRows := [], ledger := [danglingPopulatedRow] }

/-- A ledger row with NULL series_id and match_id 1, used as witness input. -/
def backfillableRow : LedgerRow :=
  { id := 2, user_id := SqlVal.int 1, match_id := SqlVal.int 1,
    series_id := SqlVal.null, points := SqlVal.real 2,
    reason := SqlVal.text "win", created_at := SqlVal.text "t0" }

/-- A ledger row with NULL series_id and a dangling match_id 42. -/
def danglingNullRow : LedgerRow :=
  { id := 3, user_id := SqlVal.int 1, match_id := SqlVal.int 42,
    series_id := SqlVal.null, points := SqlVal.real 2,
    reason := SqlVal.text "washout", created_at := SqlVal.text "t1" }

/-- A driver whose every call fails with the fixed error string. -/
def failingRunDriver : String → List SqlVal → Except String RunResult :=
  fun _ _ => Except.error "SQLITE_ERROR: no such table: users"

/-! # Theorems settling the claims -/

/-- C2 (counterexample): at the concrete failing driver, the wrapped run
    operation rejects with the raw driver error value itself, not with a
    DatabaseError object carrying it - refuting the claim that the promise
    fails with a DatabaseError value rather than the raw driver error. -/
theorem wrapRun_rejects_raw_not_databaseError :
    wrapRun failingRunDriver "INSERT INTO users (username) VALUES (?)" []
        = Settled.rejected (RejectVal.raw "SQLITE_ERROR: no such table: users")
    ∧ rejectsWithDatabaseError
        (wrapRun failingRunDriver "INSERT INTO users (username) VALUES (?)" []) = false := by
  exact ⟨rfl, rfl⟩

/-- C2 (amended): for every wrapped operation (run, get, all, exec) and
    every query and parameter list, when the underlying driver reports an
    error the returned promise is rejected with the raw driver error value
    itself (reject(err)); no DatabaseError wrapper exists in the code. -/
theorem wrapped_ops_reject_with_raw_driver_error {ε ρ : Type}
    (runDriver : String → List SqlVal → Except ε RunResult)
    (getDriver : String → List SqlVal → Except ε (Option ρ))
    (allDriver : String → List SqlVal → Except ε (List ρ))
    (execDriver : String → Except ε Unit)
    (sql : String) (params : List SqlVal) (e : ε) :
    (runDriver sql params = Except.error e →
        wrapRun runDriver sql params = Settled.rejected (RejectVal.raw e))
    ∧ (getDriver sql params = Except.error e →
        wrapGet getDriver sql params = Settled.rejected (RejectVal.raw e))
    ∧ (allDriver sql params = Except.error e →
        wrapAll allDriver sql params = Settled.rejected (RejectVal.raw e))
    ∧ (execDriver sql = Except.error e →
        wrapExec execDriver sql = Settled.rejected (RejectVal.raw e)) := by
  refine ⟨fun h => ?_, fun h => ?_, fun h => ?_, fun h => ?_⟩ <;>
    simp [wrapRun, wrapGet, wrapAll, wrapExec, h]

/-- C2 (witness): the amended theorem applied to concrete always-failing
    drivers, all four hypotheses discharged by rfl. -/
theorem wrapped_ops_reject_with_raw_driver_error_witness :
    wrapRun (fun _ _ => (Except.error "boom" : Except String RunResult)) "Q" []
        = Settled.rejected (RejectVal.raw "boom")
    ∧ wrapGet (fun _ _ => (Except.error "boom" : Except String (Option Unit))) "Q" []
        = Settled.rejected (RejectVal.raw "boom")
    ∧ wrapAll (fun _ _ => (Except.error "boom" : Except String (List Unit))) "Q" []
        = Settled.rejected (RejectVal.raw "boom")
    ∧ wrapExec (fun _ => (Except.error "boom" : Except String Unit)) "Q"
        = Settled.rejected (RejectVal.raw "boom") := by
  have h := wrapped_ops_reject_with_raw_driver_error
    (fun _ _ => (Except.error "boom" : Except String RunResult))
    (fun _ _ => (Except.error "boom" : Except String (Option Unit)))
    (fun _ _ => (Except.error "boom" : Except String (List Unit)))
    (fun _ => (Except.error "boom" : Except String Unit))
    "Q" [] "boom"
  exact ⟨h.1 rfl, h.2.1 rfl, h.2.2.1 rfl, h.2.2.2 rfl⟩

/-- C3 (counterexample): the matches table declares ON DELETE CASCADE on
    its series_id foreign key (db.js line 162), so it is false that matches
    references series without a cascade, and false that only series_members
    and predictions declare cascades: the tables with a cascading foreign
    key are exactly series_members, matches and predictions. -/
theorem matchesTable_declares_cascade :
    matchesTable.foreignKeys =
      [{ column := "series_id", refTable := "series", refColumn := "id",
         onDeleteCascade := true }]
    ∧ ((schemaTables.filter (fun t => t.foreignKeys.any (fun fk => fk.onDeleteCascade))).map
        TableDef.name) = ["series_members", "matches", "predictions"] := by
  exact ⟨rfl, rfl⟩

/-- C3 (amended): in the schema created by initDb, points_ledger references
    users, matches and series all without ON DELETE CASCADE (so deleting a
    referenced user, match or series can leave orphaned points_ledger
    rows), while series_members, predictions and also matches declare
    cascades on every foreign key; the only other non-cascading reference
    is series.created_by to users. -/
theorem pointsLedger_references_without_cascade :
    (pointsLedgerTable.foreignKeys.map (fun fk => (fk.refTable, fk.onDeleteCascade)))
        = [("users", false), ("matches", false), ("series", false)]
    ∧ seriesMembersTable.foreignKeys.all (fun fk => fk.onDeleteCascade) = true
    ∧ predictionsTable.foreignKeys.all (fun fk => fk.onDeleteCascade) = true
    ∧ matchesTable.foreignKeys.all (fun fk => fk.onDeleteCascade) = true
    ∧ (seriesTable.foreignKeys.map (fun fk => (fk.refTable, fk.onDeleteCascade)))
        = [("users", false)] := by
  exact ⟨rfl, rfl, rfl, rfl, rfl⟩

/-- C9: in a database created entirely by this module, points_ledger
    declares user_id, match_id and series_id NOT NULL; both column-presence
    checks of the migration succeed on the fresh schema, the migration adds
    no columns, and it leaves every table definition unchanged. -/
theorem fresh_schema_migration_adds_no_columns :
    (pointsLedgerTable.columns.filter
        (fun c => c.name == "user_id" || c.name == "match_id" || c.name == "series_id")).map
        (fun c => (c.name, c.notNull))
      = [("user_id", true), ("match_id", true), ("series_id", true)]
    ∧ (columnNames (execSchema emptyDb).1 "points_ledger").contains "series_id" = true
    ∧ (columnNames (execSchema emptyDb).1 "points_ledger").contains "match_id" = true
    ∧ (∀ t c, DbEvent.addColumn t c ∉ (ensurePointsLedgerSchema (execSchema emptyDb).1).2)
    ∧ (ensurePointsLedgerSchema (execSchema emptyDb).1).1.tables
        = (execSchema emptyDb).1.tables := by
  refine ⟨rfl, rfl, rfl, ?_, rfl⟩
  intro t c
  simp [ensurePointsLedgerSchema, execSchema, emptyDb, schemaTables, columnNames,
    createTableIfNotExists, createIndexIfNotExists, usersTable, seriesTable,
    seriesMembersTable, matchesTable, predictionsTable, pointsLedgerTable,
    pkCol, col, List.foldl]

/-- C4: the backfill UPDATE touches exactly the rows whose series_id is
    null or empty and whose match_id is set: rows with a populated
    series_id are unchanged, rows with NULL match_id are unchanged, and a
    row satisfying the predicate whose match_id equals the id of an
    existing match gets exactly its series_id replaced by that match's
    series_id (all other fields kept). -/
theorem backfill_updates_exactly_predicate_rows (ms : List MatchRow) (r : LedgerRow) :
    (isNullOrEmpty r.series_id = false → backfillRow ms r = r)
    ∧ (r.match_id = SqlVal.null → backfillRow ms r = r)
    ∧ (∀ mid m, isNullOrEmpty r.series_id = true → r.match_id = SqlVal.int mid →
        ms.find? (fun x => x.id == mid) = some m →
        backfillRow ms r = { r with series_id := SqlVal.int m.series_id }) := by
  refine ⟨fun h => ?_, fun h => ?_, fun mid m hs hm hf => ?_⟩
  · simp [backfillRow, h]
  · simp [backfillRow, h, isNullOrEmpty]
  · simp [backfillRow, hs, hm, matchSeriesId, hf]

/-- C4 (witness): the theorem applied to the concrete match list [(id 1,
    series 7)] and to a populated row, a NULL-match_id row, and a
    backfillable row, each hypothesis discharged by rfl. -/
theorem backfill_updates_exactly_predicate_rows_witness :
    backfillRow [{ id := 1, series_id := 7 }] danglingPopulatedRow = danglingPopulatedRow
    ∧ backfillRow [{ id := 1, series_id := 7 }] backfillableRow
        = { backfillableRow with series_id := SqlVal.int 7 } := by
  have h1 := (backfill_updates_exactly_predicate_rows
    [{ id := 1, series_id := 7 }] danglingPopulatedRow).1 rfl
  have h2 := (backfill_updates_exactly_predicate_rows
    [{ id := 1, series_id := 7 }] backfillableRow).2.2 1
    { id := 1, series_id := 7 } rfl rfl rfl
  exact ⟨h1, h2⟩

/-- C5 (counterexample): a points_ledger row whose match_id (99) references
    no existing match but whose series_id is already populated (5) keeps
    series_id = 5 after the migration, not NULL - refuting the claim that
    every row with a dangling match_id ends with a null series_id. -/
theorem migration_keeps_populated_series_id_on_dangling_row :
    (ensurePointsLedgerSchema danglingPopulatedState).1.ledger = [danglingPopulatedRow]
    ∧ danglingPopulatedRow.series_id = SqlVal.int 5
    ∧ danglingPopulatedRow.series_id ≠ SqlVal.null
    ∧ matchSeriesId danglingPopulatedState.matchRows danglingPopulatedRow.match_id
        = SqlVal.null := by
  exact ⟨rfl, rfl, by decide, rfl⟩

/-- C5 (amended): for every points_ledger row whose series_id is null or
    empty and whose match_id is set but references no existing match, the
    backfill completes without error (it is a total function) and leaves
    the row's series_id NULL, all other fields unchanged. -/
theorem backfill_dangling_match_leaves_null (ms : List MatchRow) (r : LedgerRow)
    (mid : Int)
    (hs : isNullOrEmpty r.series_id = true)
    (hm : r.match_id = SqlVal.int mid)
    (hnone : ms.find? (fun x => x.id == mid) = none) :
    backfillRow ms r = { r with series_id := SqlVal.null } := by
  simp [backfillRow, hs, hm, matchSeriesId, hnone]

/-- C5 (witness): the amended theorem applied to the row with NULL
    series_id and dangling match_id 42 against an empty match list. -/
theorem backfill_dangling_match_leaves_null_witness :
    backfillRow [] danglingNullRow = { danglingNullRow with series_id := SqlVal.null } :=
  backfill_dangling_match_leaves_null [] danglingNullRow 42 rfl rfl rfl

/-- C6: on a fresh database, initDb issues, in order: the foreign-keys
    PRAGMA, the six CREATE TABLE statements (users, series, series_members,
    matches, predictions, points_ledger), the user-count query (seeing 0),
    the bcrypt hash at cost factor 10 of the configured-or-default
    password, the INSERT of one admin user with the configured-or-default
    username and display name (defaults admin / Admin@123 / Admin), and
    finally the ledger-migration statements; the inserted row has
    is_admin = 1. -/
theorem initDb_performs_steps_in_order (env : BootstrapEnv)
    (hash : String → Nat → String) (now : String) :
    (initDb env hash now emptyDb).2 =
      [DbEvent.enableForeignKeys,
       DbEvent.createTable "users" true,
       DbEvent.createTable "series" true,
       DbEvent.createTable "series_members" true,
       DbEvent.createTable "matches" true,
       DbEvent.createTable "predictions" true,
       DbEvent.createTable "points_ledger" true,
       DbEvent.queryUserCount 0,
       DbEvent.bcryptHash (orDefault env.password "Admin@123") 10,
       DbEvent.insertAdminUser (orDefault env.username "admin")
         (orDefault env.displayName "Admin"),
       DbEvent.tableInfo "points_ledger",
       DbEvent.backfillLedger,
       DbEvent.createIndex "idx_points_ledger_series_user" true,
       DbEvent.createIndex "idx_points_ledger_match" true]
    ∧ (initDb env hash now emptyDb).1.users =
      [{ username := orDefault env.username "admin",
         password_hash := hash (orDefault env.password "Admin@123") 10,
         display_name := orDefault env.displayName "Admin",
         is_admin := 1, created_at := now }] := by
  exact ⟨rfl, rfl⟩

set_option maxHeartbeats 3200000 in
/-- C6 (witness): the step-order theorem at the default environment (all
    three variables unset), a concrete hash function and timestamp, with
    the defaults admin / Admin@123 / Admin appearing literally. -/
theorem initDb_performs_steps_in_order_witness :
    (initDb defaultEnv sampleHash "T0" emptyDb).2 =
      [DbEvent.enableForeignKeys,
       DbEvent.createTable "users" true,
       DbEvent.createTable "series" true,
       DbEvent.createTable "series_members" true,
       DbEvent.createTable "matches" true,
       DbEvent.createTable "predictions" true,
       DbEvent.createTable "points_ledger" true,
       DbEvent.queryUserCount 0,
       DbEvent.bcryptHash "Admin@123" 10,
       DbEvent.insertAdminUser "admin" "Admin",
       DbEvent.tableInfo "points_ledger",
       DbEvent.backfillLedger,
       DbEvent.createIndex "idx_points_ledger_series_user" true,
       DbEvent.createIndex "idx_points_ledger_match" true]
    ∧ (initDb defaultEnv sampleHash "T0" emptyDb).1.users =
      [{ username := "admin", password_hash := sampleHash "Admin@123" 10,
         display_name := "Admin", is_admin := 1, created_at := "T0" }] :=
  initDb_performs_steps_in_order defaultEnv sampleHash "T0"

set_option maxHeartbeats 3200000 in
/-- C1: calling initDb twice in sequence is idempotent: the second call
    leaves the database state exactly as the first left it; after it there
    is exactly one admin user; the second call's user-count check sees the
    non-zero count 1 and performs no insert and no hash; no column is
    added, no table and no index is created by the second call (every
    create event carries created = false); and the resulting table names
    and index names hold no duplicates. -/
theorem initDb_twice_is_idempotent (env : BootstrapEnv)
    (hash : String → Nat → String) (now1 now2 : String) :
    (initDb env hash now2 (initDb env hash now1 emptyDb).1).1
        = (initDb env hash now1 emptyDb).1
    ∧ ((initDb env hash now1 emptyDb).1.users.filter (fun u => u.is_admin == 1)).length = 1
    ∧ DbEvent.queryUserCount 1 ∈ (initDb env hash now2 (initDb env hash now1 emptyDb).1).2
    ∧ (∀ u d, DbEvent.insertAdminUser u d
        ∉ (initDb env hash now2 (initDb env hash now1 emptyDb).1).2)
    ∧ (∀ p c, DbEvent.bcryptHash p c
        ∉ (initDb env hash now2 (initDb env hash now1 emptyDb).1).2)
    ∧ (∀ t c, DbEvent.addColumn t c
        ∉ (initDb env hash now2 (initDb env hash now1 emptyDb).1).2)
    ∧ (∀ n, DbEvent.createTable n true
        ∉ (initDb env hash now2 (initDb env hash now1 emptyDb).1).2)
    ∧ (∀ n, DbEvent.createIndex n true
        ∉ (initDb env hash now2 (initDb env hash now1 emptyDb).1).2)
    ∧ ((initDb env hash now1 emptyDb).1.tables.map TableDef.name).Nodup
    ∧ (initDb env hash now1 emptyDb).1.indexes.Nodup := by
  have hst : (initDb env hash now1 emptyDb).1 =
      (⟨true,
        [usersTable, seriesTable, seriesMembersTable, matchesTable,
         predictionsTable, pointsLedgerTable],
        ["idx_points_ledger_series_user", "idx_points_ledger_match"],
        [⟨orDefault env.username "admin",
          hash (orDefault env.password "Admin@123") 10,
          orDefault env.displayName "Admin", 1, now1⟩],
        [], []⟩ : DbState) := rfl
  rw [hst]
  have hpair : initDb env hash now2
      (⟨true,
        [usersTable, seriesTable, seriesMembersTable, matchesTable,
         predictionsTable, pointsLedgerTable],
        ["idx_points_ledger_series_user", "idx_points_ledger_match"],
        [⟨orDefault env.username "admin",
          hash (orDefault env.password "Admin@123") 10,
          orDefault env.displayName "Admin", 1, now1⟩],
        [], []⟩ : DbState) =
      (⟨true,
        [usersTable, seriesTable, seriesMembersTable, matchesTable,
         predictionsTable, pointsLedgerTable],
        ["idx_points_ledger_series_user", "idx_points_ledger_match"],
        [⟨orDefault env.username "admin",
          hash (orDefault env.password "Admin@123") 10,
          orDefault env.displayName "Admin", 1, now1⟩],
        [], []⟩,
       [DbEvent.enableForeignKeys,
        DbEvent.createTable "users" false,
        DbEvent.createTable "series" false,
        DbEvent.createTable "series_members" false,
        DbEvent.createTable "matches" false,
        DbEvent.createTable "predictions" false,
        DbEvent.createTable "points_ledger" false,
        DbEvent.queryUserCount 1,
        DbEvent.tableInfo "points_ledger",
        DbEvent.backfillLedger,
        DbEvent.createIndex "idx_points_ledger_series_user" false,
        DbEvent.createIndex "idx_points_ledger_match" false]) := rfl
  rw [hpair]
  refine ⟨rfl, rfl, ?_, ?_, ?_, ?_, ?_, ?_, ?_, ?_⟩
  · simp
  · intro u d; simp
  · intro p c; simp
  · intro t c; simp
  · intro n; simp
  · intro n; simp
  · show (List.map TableDef.name
      [usersTable, seriesTable, seriesMembersTable, matchesTable,
       predictionsTable, pointsLedgerTable]).Nodup
    decide
  · show (["idx_points_ledger_series_user", "idx_points_ledger_match"] : List String).Nodup
    decide

/-- C1 (witness): the binder-free consequences of the idempotence theorem
    at the default environment, a concrete hash function and concrete
    timestamps. -/
theorem initDb_twice_is_idempotent_witness :
    (initDb defaultEnv sampleHash "T2" (initDb defaultEnv sampleHash "T1" emptyDb).1).1
        = (initDb defaultEnv sampleHash "T1" emptyDb).1
    ∧ ((initDb defaultEnv sampleHash "T1" emptyDb).1.users.filter
        (fun u => u.is_admin == 1)).length = 1 := by
  have h := initDb_twice_is_idempotent defaultEnv sampleHash "T1" "T2"
  exact ⟨h.1, h.2.1⟩

/-- C7: getDb creates the connection only on the first call - issuing the
    foreign-keys PRAGMA on the freshly opened connection - caches the
    wrapper, and every later call returns the very same wrapper object
    without touching the state; in general any state holding a cached
    wrapper is returned unchanged. -/
theorem getDb_returns_same_singleton (pr1 pr2 : Except String Unit) :
    (getDb pr1 initialModuleState).2 = Except.ok { rawId := 0, file := dbFilePath }
    ∧ (getDb pr1 initialModuleState).1.fkPragmaIssuedOn = [0]
    ∧ (getDb pr1 initialModuleState).1.nextConnId = 1
    ∧ getDb pr2 (getDb pr1 initialModuleState).1
        = ((getDb pr1 initialModuleState).1, Except.ok { rawId := 0, file := dbFilePath })
    ∧ (∀ (s : ModuleState) (w : DbWrapper) (pr : Except String Unit),
        s.dbInstance = some w → getDb pr s = (s, Except.ok w)) := by
  refine ⟨rfl, rfl, rfl, rfl, ?_⟩
  intro s w pr h
  simp only [getDb, h]

/-- C7 (witness): the binder-free consequences at concrete pragma
    outcomes, plus the cached-state clause applied to the state after the
    first call, its hypothesis discharged by rfl. -/
theorem getDb_returns_same_singleton_witness :
    (getDb (Except.ok ()) initialModuleState).2
        = Except.ok { rawId := 0, file := dbFilePath }
    ∧ getDb (Except.error "SQLITE_CANTOPEN") (getDb (Except.ok ()) initialModuleState).1
        = ((getDb (Except.ok ()) initialModuleState).1,
           Except.ok { rawId := 0, file := dbFilePath }) := by
  have h := getDb_returns_same_singleton (Except.ok ()) (Except.error "SQLITE_CANTOPEN")
  exact ⟨h.1, h.2.2.2.2 (getDb (Except.ok ()) initialModuleState).1
    { rawId := 0, file := dbFilePath } (Except.error "SQLITE_CANTOPEN") rfl⟩

/-- C8: the outcome of the foreign-keys PRAGMA that getDb fires at open
    time is never inspected (no await, no callback): getDb returns the
    identical state and wrapper whether the pragma succeeded or failed
    with any error, and its result is always a successfully returned
    wrapper - the failure is never surfaced. -/
theorem getDb_never_surfaces_pragma_failure (e : String) (s : ModuleState) :
    getDb (Except.error e) s = getDb (Except.ok ()) s
    ∧ (getDb (Except.error e) s).2 ≠ Except.error e
    ∧ (∃ w, (getDb (Except.error e) s).2 = Except.ok w) := by
  refine ⟨rfl, ?_, ?_⟩ <;> cases h : s.dbInstance <;> simp only [getDb, h] <;> simp

/-- C8 (witness): the first consequence at a concrete error and the
    initial module state. -/
theorem getDb_never_surfaces_pragma_failure_witness :
    getDb (Except.error "SQLITE_BUSY") initialModuleState
        = getDb (Except.ok ()) initialModuleState :=
  (getDb_never_surfaces_pragma_failure "SQLITE_BUSY" initialModuleState).1

/-- C10: closing the wrapper never clears the cached singleton (close only
    releases the native connection), so after a close the next getDb call
    returns the very same - now closed - wrapper, opens no fresh
    connection (the connection counter is unchanged), and the closed
    connection stays closed. -/
theorem close_does_not_reset_singleton (pr1 pr2 : Except String Unit) :
    (closeWrapper { rawId := 0, file := dbFilePath }
        (getDb pr1 initialModuleState).1).dbInstance
      = some { rawId := 0, file := dbFilePath }
    ∧ getDb pr2 (closeWrapper { rawId := 0, file := dbFilePath }
        (getDb pr1 initialModuleState).1)
      = (closeWrapper { rawId := 0, file := dbFilePath }
          (getDb pr1 initialModuleState).1,
         Except.ok { rawId := 0, file := dbFilePath })
    ∧ (closeWrapper { rawId := 0, file := dbFilePath }
        (getDb pr1 initialModuleState).1).openConns = []
    ∧ (getDb pr2 (closeWrapper { rawId := 0, file := dbFilePath }
        (getDb pr1 initialModuleState).1)).1.nextConnId = 1
    ∧ (∀ (s : ModuleState) (w : DbWrapper),
        (closeWrapper w s).dbInstance = s.dbInstance) := by
  exact ⟨rfl, rfl, rfl, rfl, fun s w => rfl⟩

/-- C10 (witness): the binder-free consequences at concrete pragma
    outcomes. -/
theorem close_does_not_reset_singleton_witness :
    getDb (Except.ok ()) (closeWrapper { rawId := 0, file := dbFilePath }
        (getDb (Except.ok ()) initialModuleState).1)
      = (closeWrapper { rawId := 0, file := dbFilePath }
          (getDb (Except.ok ()) initialModuleState).1,
         Except.ok { rawId := 0, file := dbFilePath })
    ∧ (closeWrapper { rawId := 0, file := dbFilePath }
        (getDb (Except.ok ()) initialModuleState).1).openConns = [] := by
  have h := close_does_not_reset_singleton (Except.ok ()) (Except.ok ())
  exact ⟨h.2.1, h.2.2.1⟩

end TravelPlanDb
